import Mathlib

/-!
Verification development for the defendxstore repository.

The permission model (capability bitmasks, `permissions`, `requireRole`,
`createResponse`) is embedded from the code snippets in
`INTERVIEW_QA.md` and `backend/src/app.js`; the order / delivery /
ticket workflow core is not present under the repository sources, so it
is modelled from the specification (each such definition carries a
doc comment starting with "Modelled from the spec:").  The frontend
`filteredItems` (Home page) and `ProfileImage` component are embedded
from `frontend/src/pages/Home/index.js` and
`frontend/src/components/ProfileImage/index.js`.
-/

/-! ## Capability bitmasks (from the `permissions` mapping in the code) -/

/-- Capability bit for an ordinary user, `USER: 1` in the code. -/
def USER : Nat := 1

/-- Capability bit for a delivery agent, `DELIVERY_AGENT: 2` in the code. -/
def DELIVERY_AGENT : Nat := 2

/-- Capability bit for a support agent, `SUPPORT_AGENT: 4` in the code. -/
def SUPPORT_AGENT : Nat := 4

/-- Capability bit for an administrator, `ADMIN: 8` in the code. -/
def ADMIN : Nat := 8

/-- The fixed role registry: the four named capabilities of the code's
`permissions` object. -/
inductive Role where
  | user
  | deliveryAgent
  | supportAgent
  | admin
deriving DecidableEq

/-- Bit value of a registry role, matching the `permissions` mapping. -/
def roleBit : Role → Nat
  | .user => USER
  | .deliveryAgent => DELIVERY_AGENT
  | .supportAgent => SUPPORT_AGENT
  | .admin => ADMIN

/-- Membership test on a capability mask: `(mask & capability) != 0`,
exactly the check used by the code's `requireRole` middleware. -/
def has (mask capability : Nat) : Bool := (mask &&& capability) != 0

/-- The code's `requireRole` middleware decision: the request passes when
`userRole & permissions[requiredRole]` is nonzero. -/
def requireRole (requiredRole : Role) (userRole : Nat) : Bool :=
  (userRole &&& roleBit requiredRole) != 0

/-- Mask combination: bitwise OR, as in the spec's PermissionEvaluator and
the code's use of bitwise OR for multi-role users. -/
def combine (a b : Nat) : Nat := a ||| b

/-- Mask revocation `mask & ~capability`.  JavaScript bitwise operators
work on the 32-bit patterns of their operands, so both arguments are
truncated to 32 bits and the bits of the capability are cleared. -/
def revoke (mask capability : Nat) : Nat :=
  Nat.ldiff (mask % 2 ^ 32) (capability % 2 ^ 32)

/-! ## Error taxonomy, principals and the authorization gate -/

/-- Modelled from the spec: the error taxonomy of §7 (the workflow core
that raises most of these errors is not under the repository sources). -/
inductive Failure where
  | Unauthenticated
  | Forbidden
  | IllegalTransition
  | AlreadyAssigned
  | AlreadyClaimed
  | NoAgentAvailable
  | StaleVersion
  | ReopenLimitExceeded
  | NotFound
deriving DecidableEq

/-- Modelled from the spec: a Principal carries an identity, a capability
bitmask and a token expiry (§3). -/
structure Principal where
  subjectId : Nat
  mask : Nat
  expiresAt : Nat
deriving DecidableEq

/-- Modelled from the spec: a capability requirement is a single
capability, a disjunction, or a conjunction of capabilities (§4.2). -/
inductive Requirement where
  | single (cap : Nat)
  | anyOf (caps : List Nat)
  | allOf (caps : List Nat)

/-- Modelled from the spec: denial reasons of the AuthorizationGate (§4.2). -/
inductive DenyReason where
  | InsufficientRole
  | ExpiredPrincipal
  | NoPrincipal
deriving DecidableEq

/-- Modelled from the spec: the gate's decision (§4.2). -/
inductive Decision where
  | Allow
  | Deny (reason : DenyReason)
deriving DecidableEq

/-- Evaluation of a requirement against a capability mask, using the
code's membership test `has`. -/
def evalRequirement (mask : Nat) : Requirement → Bool
  | .single c => has mask c
  | .anyOf cs => cs.any fun c => has mask c
  | .allOf cs => cs.all fun c => has mask c

/-- Modelled from the spec: `authorize(principal, requirement)` returns
Allow or Deny(reason); a missing principal denies with NoPrincipal, an
expired one (expiry not after the current instant) denies with
ExpiredPrincipal regardless of its capability bits (§4.2, §5). -/
def authorize (p : Option Principal) (now : Nat) (req : Requirement) : Decision :=
  match p with
  | none => .Deny .NoPrincipal
  | some pr =>
    if pr.expiresAt ≤ now then .Deny .ExpiredPrincipal
    else if evalRequirement pr.mask req then .Allow
    else .Deny .InsufficientRole

/-- Modelled from the spec: how gate denials surface in the error
taxonomy — missing/expired principals are `Unauthenticated`, capability
failures are `Forbidden` (§7). -/
def denyToFailure : DenyReason → Failure
  | .InsufficientRole => .Forbidden
  | .ExpiredPrincipal => .Unauthenticated
  | .NoPrincipal => .Unauthenticated

/-! ## OrderLifecycle -/

/-- Modelled from the spec: the order status enumeration (§4.3). -/
inductive OrderStatus where
  | PLACED
  | CONFIRMED
  | ASSIGNED
  | OUT_FOR_DELIVERY
  | DELIVERED
  | CANCELLED
  | RETURNED
deriving DecidableEq

/-- Modelled from the spec: the fixed adjacency table of the order state
machine — the chain PLACED → CONFIRMED → ASSIGNED → OUT_FOR_DELIVERY →
DELIVERED with CANCELLED reachable from PLACED or CONFIRMED only and
RETURNED reachable from DELIVERED only (§4.3). -/
def allowedNext : OrderStatus → OrderStatus → Bool
  | .PLACED, .CONFIRMED => true
  | .PLACED, .CANCELLED => true
  | .CONFIRMED, .ASSIGNED => true
  | .CONFIRMED, .CANCELLED => true
  | .ASSIGNED, .OUT_FOR_DELIVERY => true
  | .OUT_FOR_DELIVERY, .DELIVERED => true
  | .DELIVERED, .RETURNED => true
  | _, _ => false

/-- Modelled from the spec: an order record — owner, status, assigned
agent, version counter, DELIVERED timestamp and transition history (§3). -/
structure Order where
  id : Nat
  owner : Nat
  status : OrderStatus
  assignedAgent : Option Nat
  version : Nat
  deliveredAt : Option Nat
  history : List (OrderStatus × Nat)
deriving DecidableEq

/-- Modelled from the spec: the per-target capability requirements of
§4.3 — CONFIRMED needs ADMIN or SUPPORT_AGENT; ASSIGNED is never produced
directly by a caller; OUT_FOR_DELIVERY and DELIVERED need the assigned
agent or ADMIN; CANCELLED needs the owner or ADMIN; RETURNED needs the
owner within the return window measured from the DELIVERED timestamp. -/
def transitionPermitted (o : Order) (target : OrderStatus) (p : Principal)
    (now window : Nat) : Bool :=
  match target with
  | .CONFIRMED => has p.mask ADMIN || has p.mask SUPPORT_AGENT
  | .ASSIGNED => false
  | .OUT_FOR_DELIVERY => o.assignedAgent == some p.subjectId || has p.mask ADMIN
  | .DELIVERED => o.assignedAgent == some p.subjectId || has p.mask ADMIN
  | .CANCELLED => p.subjectId == o.owner || has p.mask ADMIN
  | .RETURNED =>
    p.subjectId == o.owner &&
      (match o.deliveredAt with
       | some t => now ≤ t + window
       | none => false)
  | _ => false

/-- Modelled from the spec: `transition(order, targetState, actingPrincipal)`
— a target outside the adjacency table fails with IllegalTransition, a
capability failure with Forbidden; an accepted transition sets the new
status, bumps the version counter and appends to the history (§4.3). -/
def transition (o : Order) (target : OrderStatus) (p : Principal)
    (now window : Nat) : Except Failure Order :=
  if allowedNext o.status target then
    if transitionPermitted o target p now window then
      .ok { o with
            status := target
            version := o.version + 1
            deliveredAt := if target = .DELIVERED then some now else o.deliveredAt
            history := o.history ++ [(target, now)] }
    else .error .Forbidden
  else .error .IllegalTransition

/-- Modelled from the spec: the statuses an order successively exhibits
under a stream of transition requests; rejected requests leave the order
unchanged. -/
def runTransitions (window : Nat) :
    Order → List (OrderStatus × Principal × Nat) → List OrderStatus
  | _, [] => []
  | o, (t, p, now) :: rest =>
    match transition o t p now window with
    | .ok o' => t :: runTransitions window o' rest
    | .error _ => runTransitions window o rest

/-! ## Gated order transitions -/

/-- Modelled from the spec: control flow of §2 — the gate is consulted at
request entry and, only if it allows, the lifecycle transition executes;
the pair returned is the request outcome together with the persisted
order record (unchanged whenever the request fails). -/
def gatedTransition (p : Option Principal) (now window : Nat) (req : Requirement)
    (o : Order) (target : OrderStatus) : Except Failure Order × Order :=
  match authorize p now req with
  | .Deny r => (.error (denyToFailure r), o)
  | .Allow =>
    match p with
    | none => (.error .Unauthenticated, o)
    | some pr =>
      match transition o target pr now window with
      | .ok o' => (.ok o', o')
      | .error e => (.error e, o)

/-! ## DeliveryAssignment -/

/-- Modelled from the spec: a delivery agent of the assignment pool, with
an availability flag and current load of in-flight orders (§4.4). -/
structure Agent where
  id : Nat
  available : Bool
  load : Nat
deriving DecidableEq

/-- Modelled from the spec: one comparison step of the least-loaded
selection — keep the less loaded agent, ties broken by smaller id (§4.4). -/
def betterAgent (best : Option Agent) (a : Agent) : Option Agent :=
  match best with
  | none => some a
  | some b =>
    if a.load < b.load || (a.load == b.load && a.id < b.id) then some a
    else some b

/-- Modelled from the spec: least-loaded available agent, ties broken by
smaller agent id (§4.4). -/
def pickAgent (agents : List Agent) : Option Agent :=
  (agents.filter fun a => a.available).foldl betterAgent none

/-- Modelled from the spec: the store state the assignment component
works on — the order record and the agent pool (§4.4). -/
structure AssignState where
  order : Order
  agents : List Agent
deriving DecidableEq

/-- Modelled from the spec: the outcome of one `assign` call (§4.4). -/
inductive AssignResult where
  | assigned (agentId : Nat)
  | noAgent
  | alreadyAssigned
deriving DecidableEq

/-- True exactly on a successful assignment outcome. -/
def isAssigned : AssignResult → Bool
  | .assigned _ => true
  | _ => false

/-- Modelled from the spec: one assignment attempt's conditional write —
it commits only if the order is still CONFIRMED at the version the
attempt read; a moved version or status is reported as AlreadyAssigned,
an empty pool as NoAgentAvailable (§4.4, §5). -/
def condAssign (expectedVersion : Nat) (s : AssignState) : AssignResult × AssignState :=
  if s.order.status = .CONFIRMED ∧ s.order.version = expectedVersion then
    match pickAgent s.agents with
    | none => (.noAgent, s)
    | some a =>
      (.assigned a.id,
       { order := { s.order with
                    status := .ASSIGNED
                    assignedAgent := some a.id
                    version := s.order.version + 1 }
         agents := s.agents.map fun ag =>
           if ag.id = a.id then { ag with load := ag.load + 1 } else ag })
  else (.alreadyAssigned, s)

/-- Modelled from the spec: N simultaneous `assign` calls on one order —
all read the same version, and their conditional writes are linearized
by the store's atomic conditional-update primitive (§5); the list of the
outcomes is collected in write order. -/
def assignRace (expectedVersion : Nat) : Nat → AssignState → List AssignResult × AssignState
  | 0, s => ([], s)
  | n + 1, s =>
    let step := condAssign expectedVersion s
    let rest := assignRace expectedVersion n step.2
    (step.1 :: rest.1, rest.2)

/-! ## TicketLifecycle -/

/-- Modelled from the spec: the ticket status enumeration (§4.5). -/
inductive TicketStatus where
  | OPEN
  | IN_PROGRESS
  | RESOLVED
  | CLOSED
deriving DecidableEq

/-- Modelled from the spec: a ticket record with owner, status, claiming
agent, reopen counter and version (§3, §4.5). -/
structure Ticket where
  id : Nat
  owner : Nat
  status : TicketStatus
  assignedAgent : Option Nat
  reopenCount : Nat
  version : Nat
deriving DecidableEq

/-- Modelled from the spec: the forward edges of the ticket state machine
OPEN → IN_PROGRESS → RESOLVED → CLOSED (§4.5); reopening is a separate
operation. -/
def ticketAllowedNext : TicketStatus → TicketStatus → Bool
  | .OPEN, .IN_PROGRESS => true
  | .IN_PROGRESS, .RESOLVED => true
  | .RESOLVED, .CLOSED => true
  | _, _ => false

/-- Modelled from the spec: forward ticket transitions and their gating —
claiming needs a SUPPORT_AGENT and fails with AlreadyClaimed once an
agent is bound; RESOLVED needs the claiming agent or ADMIN; CLOSED needs
the owner, the claiming agent or ADMIN (§4.5). -/
def ticketTransition (t : Ticket) (target : TicketStatus) (p : Principal) :
    Except Failure Ticket :=
  if ticketAllowedNext t.status target then
    match target with
    | .IN_PROGRESS =>
      if has p.mask SUPPORT_AGENT then
        match t.assignedAgent with
        | some _ => .error .AlreadyClaimed
        | none =>
          .ok { t with
                status := .IN_PROGRESS
                assignedAgent := some p.subjectId
                version := t.version + 1 }
      else .error .Forbidden
    | .RESOLVED =>
      if t.assignedAgent == some p.subjectId || has p.mask ADMIN then
        .ok { t with status := .RESOLVED, version := t.version + 1 }
      else .error .Forbidden
    | .CLOSED =>
      if p.subjectId == t.owner || t.assignedAgent == some p.subjectId ||
          has p.mask ADMIN then
        .ok { t with status := .CLOSED, version := t.version + 1 }
      else .error .Forbidden
    | _ => .error .IllegalTransition
  else .error .IllegalTransition

/-- Modelled from the spec: the reopen operation — REOPENED is reachable
only from CLOSED, requires the owning user, moves the ticket back to
OPEN, and the `reopenCount` field limits it to one reopen per ticket,
failing with ReopenLimitExceeded afterwards (§4.5). -/
def reopenTicket (t : Ticket) (actingUser : Nat) : Except Failure Ticket :=
  if t.status ≠ .CLOSED then .error .IllegalTransition
  else if actingUser ≠ t.owner then .error .Forbidden
  else if 1 ≤ t.reopenCount then .error .ReopenLimitExceeded
  else .ok { t with status := .OPEN, reopenCount := t.reopenCount + 1,
                    version := t.version + 1 }

/-! ## Response envelope (from `createResponse` and the error middleware) -/

/-- The response envelope `\x7b success, body \x7d` of the code. -/
structure Envelope (β : Type) where
  success : Bool
  body : β

/-- The code's `createResponse(res, status, data)`: the envelope's
`success` field is `status < 400`. -/
def createResponse (status : Nat) (body : β) : Envelope β :=
  { success := decide (status < 400), body := body }

/-- Modelled from the spec: the HTTP status carried by each failure of
the taxonomy when it is surfaced to the caller (§7); every failure is an
error status. -/
def failureStatus : Failure → Nat
  | .Unauthenticated => 401
  | .Forbidden => 403
  | .IllegalTransition => 409
  | .AlreadyAssigned => 409
  | .AlreadyClaimed => 409
  | .NoAgentAvailable => 503
  | .StaleVersion => 409
  | .ReopenLimitExceeded => 409
  | .NotFound => 404

/-- Modelled from the spec: a failure is surfaced as a typed failure in
the response envelope, never swallowed (§7). -/
def surfaceFailure (e : Failure) : Envelope Failure :=
  createResponse (failureStatus e) e

/-! ## Home page search filter (from `frontend/src/pages/Home/index.js`) -/

/-- JavaScript `String.prototype.startsWith`-style check on character
lists: `strStarts q s` holds when `s` begins with `q`. -/
def strStarts : List Char → List Char → Bool
  | [], _ => true
  | _ :: _, [] => false
  | c :: q, d :: s => c == d && strStarts q s

/-- JavaScript `String.prototype.includes` on character lists:
`strHas s q` holds when `q` occurs contiguously inside `s`. -/
def strHas : List Char → List Char → Bool
  | [], q => q.isEmpty
  | c :: tl, q => strStarts q (c :: tl) || strHas tl q

/-- JavaScript `toLowerCase` (over the ASCII range relevant here). -/
def jsToLower (s : String) : String := ⟨s.data.map Char.toLower⟩

/-- JavaScript `s.includes(q)` lifted to Lean strings. -/
def strIncludes (s q : String) : Bool := strHas s.data q.data

/-- A fetched item as the Home page filter reads it: the fields touched
by the filter may each be absent (optional chaining in the code), and
`colors` may be absent or not an array. -/
structure Item where
  itemName : Option String
  description : Option String
  category : Option String
  colors : Option (List String)
deriving DecidableEq

/-- The predicate of the code's `items.body.filter(...)`: the lowercased
query occurs in the lowercased `itemName`, `description` or `category`,
or in some lowercased element of the `colors` array; a missing field
never matches. -/
def itemMatches (query : String) (it : Item) : Bool :=
  (match it.itemName with
   | some s => strIncludes (jsToLower s) query
   | none => false) ||
  (match it.description with
   | some s => strIncludes (jsToLower s) query
   | none => false) ||
  (match it.category with
   | some s => strIncludes (jsToLower s) query
   | none => false) ||
  (match it.colors with
   | some cs => cs.any fun c => strIncludes (jsToLower c) query
   | none => false)

/-- The Home page's `filteredItems` memo: `[]` when `searchQuery` is
falsy (absent from the URL, or the empty string) or when `items.body` is
absent; otherwise the fetched list filtered by `itemMatches` against the
lowercased query. -/
def filteredItems (searchQuery : Option String) (body : Option (List Item)) :
    List Item :=
  match searchQuery, body with
  | none, _ => []
  | some _, none => []
  | some q, some items =>
    if q.isEmpty then [] else items.filter (itemMatches (jsToLower q))

/-- Following the claim's words: for every non-null search query the
result holds exactly the items matching the query, and it is empty when
the query or the item list body is absent. -/
def claimFilteredItems (searchQuery : Option String) (body : Option (List Item)) :
    List Item :=
  match searchQuery, body with
  | none, _ => []
  | some _, none => []
  | some q, some items => items.filter (itemMatches (jsToLower q))

/-! ## ProfileImage component (from `frontend/src/components/ProfileImage`) -/

/-- JavaScript truthiness of an optional string value: `undefined` and
the empty string are falsy. -/
def jsTruthy : Option String → Bool
  | none => false
  | some s => !s.isEmpty

/-- JavaScript `s.charAt(i)`: the one-character string at index `i`, or
the empty string out of range. -/
def jsCharAt (s : String) (i : Nat) : String :=
  match s.data.drop i with
  | [] => ""
  | c :: _ => ⟨[c]⟩

/-- JavaScript `toUpperCase` (over the ASCII range relevant here). -/
def jsToUpper (s : String) : String := ⟨s.data.map Char.toUpper⟩

/-- What the ProfileImage component renders: either the `img` element or
the initial-letter fallback `div`. -/
inductive Rendered where
  | image (src : String) (width height : Int)
  | fallback (text : String) (width height fontSize : Int)
deriving DecidableEq

/-- The ProfileImage component: with a truthy `image` it renders the
image element; otherwise it renders the fallback with
`username.charAt(0).toUpperCase()` and font size
`size - 10 < 5 ? size : size - 10`; with no `username` the member access
`username.charAt` throws, modelled as `none`. -/
def profileImage (image username : Option String) (size : Int) : Option Rendered :=
  if jsTruthy image then some (.image (image.getD "") size size)
  else
    match username with
    | none => none
    | some u =>
      some (.fallback (jsToUpper (jsCharAt u 0)) size size
        (if size - 10 < 5 then size else size - 10))

/-! ## Sample data used by witnesses -/

/-- A freshly placed sample order. -/
def sampleOrder : Order :=
  { id := 1, owner := 2, status := .PLACED, assignedAgent := none,
    version := 0, deliveredAt := none, history := [] }

/-- A sample administrator principal with a far-off expiry. -/
def sampleAdmin : Principal := { subjectId := 9, mask := ADMIN, expiresAt := 1000 }

/-- A sample CONFIRMED order together with one available agent. -/
def sampleConfirmedState : AssignState :=
  { order := { sampleOrder with status := .CONFIRMED }
    agents := [{ id := 1, available := true, load := 0 }] }

/-- A sample closed ticket that has never been reopened. -/
def sampleClosedTicket : Ticket :=
  { id := 1, owner := 2, status := .CLOSED, assignedAgent := some 3,
    reopenCount := 0, version := 5 }

/-- A sample fetched item whose name is the only populated text field. -/
def sampleItem : Item :=
  { itemName := some "Alpha", description := none, category := none, colors := none }

/-! ## Theorems -/

/-- Claim C6: for all capability mask values `a` and `b`,
`combine(a, b) = combine(b, a)` and `combine(a, a) = a`; combine is
bitwise OR and is associative, commutative and idempotent. -/
theorem combine_comm_idem_assoc (a b c : Nat) :
    combine a b = combine b a ∧ combine a a = a ∧
    combine (combine a b) c = combine a (combine b c) :=
  ⟨Nat.lor_comm a b, Nat.or_self a, Nat.lor_assoc a b c⟩

/-- Clearing the bits of `b` out of `a` leaves nothing in common with `b`. -/
theorem ldiff_land_self (a b : Nat) : Nat.ldiff a b &&& b = 0 :=
  Nat.eq_of_testBit_eq fun i => by
    simp only [Nat.testBit_land, Nat.testBit_ldiff, Nat.zero_testBit]
    cases Nat.testBit b i <;> simp

/-- Claim C7: for every mask `m` and every capability `c` of the
registry, `has(revoke(m, c), c) = false`, where
`revoke(mask, capability) = mask & ~capability`. -/
theorem revoke_clears (m : Nat) (r : Role) :
    has (revoke m (roleBit r)) (roleBit r) = false := by
  have hmod : roleBit r % 4294967296 = roleBit r :=
    Nat.mod_eq_of_lt
      (by cases r <;> norm_num [roleBit, USER, DELIVERY_AGENT, SUPPORT_AGENT, ADMIN])
  simp [has, revoke, hmod, ldiff_land_self]

/-- Claim C3: a principal whose mask is `USER ||| SUPPORT_AGENT = 5`
passes `authorize` against `anyOf(SUPPORT_AGENT, ADMIN)` with Allow, a
principal whose mask is `USER = 1` is denied with InsufficientRole, and
the underlying membership test is `has(mask, c) = ((mask & c) != 0)`,
the same check the code's `requireRole` middleware performs. -/
theorem authorize_support_scenario :
    authorize (some { subjectId := 7, mask := USER ||| SUPPORT_AGENT, expiresAt := 100 }) 0
        (.anyOf [SUPPORT_AGENT, ADMIN]) = .Allow ∧
    authorize (some { subjectId := 8, mask := USER, expiresAt := 100 }) 0
        (.anyOf [SUPPORT_AGENT, ADMIN]) = .Deny .InsufficientRole ∧
    (∀ m c : Nat, has m c = true ↔ m &&& c ≠ 0) ∧
    (∀ (m : Nat) (r : Role), requireRole r m = has m (roleBit r)) := by
  refine ⟨by decide, by decide, fun m c => ?_, fun m r => rfl⟩
  simp [has]

/-- Claim C8: every failure of the error taxonomy is surfaced to the
caller inside the response envelope as a typed failure with
`success = false`, and `createResponse` sets `success = false` exactly
when the HTTP status is an error status (at least 400). -/
theorem failures_surfaced :
    (∀ e : Failure, (surfaceFailure e).success = false ∧
        (surfaceFailure e).body = e ∧ 400 ≤ failureStatus e) ∧
    (∀ (status : Nat) (b : String),
        (createResponse status b).success = false ↔ 400 ≤ status) := by
  constructor
  · intro e
    cases e <;> exact ⟨rfl, rfl, by norm_num [failureStatus]⟩
  · intro status b
    simp [createResponse, Nat.not_lt]

/-- Claim C4: every gated transition request made with a principal whose
token expiry has passed is denied immediately with Unauthenticated,
regardless of the capability bits the principal carries, and the
persisted order is unchanged. -/
theorem expired_principal_unauthenticated (pr : Principal) (now window : Nat)
    (req : Requirement) (o : Order) (target : OrderStatus)
    (hexp : pr.expiresAt ≤ now) :
    gatedTransition (some pr) now window req o target =
      (.error .Unauthenticated, o) := by
  simp [gatedTransition, authorize, hexp, denyToFailure]

/-- Witness for claim C4 at a concrete expired administrator principal. -/
theorem expired_principal_unauthenticated_witness :
    gatedTransition (some { subjectId := 1, mask := 15, expiresAt := 5 }) 10 7
        (.single ADMIN) sampleOrder .CONFIRMED =
      (.error .Unauthenticated, sampleOrder) :=
  expired_principal_unauthenticated { subjectId := 1, mask := 15, expiresAt := 5 }
    10 7 (.single ADMIN) sampleOrder .CONFIRMED (by decide)

/-- A transition that is accepted targets a successor in the adjacency
table, and the resulting order carries the target status. -/
theorem transition_ok_edge (o : Order) (t : OrderStatus) (p : Principal)
    (now window : Nat) (o' : Order)
    (h : transition o t p now window = .ok o') :
    allowedNext o.status t = true ∧ o'.status = t := by
  unfold transition at h
  by_cases h1 : allowedNext o.status t
  · refine ⟨h1, ?_⟩
    by_cases h2 : transitionPermitted o t p now window
    · simp only [h1, if_true, h2, Except.ok.injEq] at h
      rw [← h]
    · simp [h1, h2] at h
  · simp [h1] at h

/-- The statuses produced by a stream of transition requests always
follow edges of the adjacency table. -/
theorem runTransitions_chain (window : Nat)
    (reqs : List (OrderStatus × Principal × Nat)) (o : Order) :
    List.Chain (fun a b => allowedNext a b = true) o.status
      (runTransitions window o reqs) := by
  induction reqs generalizing o with
  | nil => exact List.Chain.nil
  | cons hd rest ih =>
    obtain ⟨t, p, now⟩ := hd
    rw [runTransitions]
    cases htr : transition o t p now window with
    | ok o' =>
      obtain ⟨hedge, hst⟩ := transition_ok_edge o t p now window o' htr
      exact List.Chain.cons hedge (hst ▸ ih o')
    | error e => exact ih o

/-- Claim C1: a transition is accepted only along an edge of the fixed
graph PLACED → CONFIRMED → ASSIGNED → OUT_FOR_DELIVERY → DELIVERED with
CANCELLED reachable only from PLACED or CONFIRMED and RETURNED only from
DELIVERED; every pair outside the adjacency table fails with
IllegalTransition; hence the statuses any order exhibits under any
request stream form a path through that graph. -/
theorem order_transition_graph (o : Order) (t : OrderStatus) (p : Principal)
    (now window : Nat) :
    (∀ o', transition o t p now window = .ok o' →
        allowedNext o.status t = true ∧ o'.status = t) ∧
    (allowedNext o.status t = false →
        transition o t p now window = .error .IllegalTransition) ∧
    (∀ reqs, List.Chain (fun a b => allowedNext a b = true) o.status
        (runTransitions window o reqs)) := by
  refine ⟨fun o' h => transition_ok_edge o t p now window o' h, fun hbad => ?_,
    fun reqs => runTransitions_chain window reqs o⟩
  simp [transition, hbad]

/-- Witness for claim C1: a PLACED order cannot jump to DELIVERED. -/
theorem order_transition_graph_witness :
    transition sampleOrder .DELIVERED sampleAdmin 0 7 =
      .error .IllegalTransition :=
  (order_transition_graph sampleOrder .DELIVERED sampleAdmin 0 7).2.1 (by decide)

/-- Claim C5: the first reopen of a CLOSED ticket by its owner succeeds
and moves it back to OPEN with `reopenCount = 1`; once `reopenCount` is
positive a reopen from CLOSED fails with ReopenLimitExceeded; every
successful reopen increments `reopenCount` and no forward ticket
transition changes it, so a ticket is reopened at most once over its
lifetime. -/
theorem ticket_reopen_once (t : Ticket) (u : Nat) :
    (t.status = .CLOSED → t.owner = u → t.reopenCount = 0 →
      reopenTicket t u =
        .ok { t with status := .OPEN, reopenCount := 1, version := t.version + 1 }) ∧
    (∀ t', t'.status = .CLOSED → t'.owner = u → 1 ≤ t'.reopenCount →
      reopenTicket t' u = .error .ReopenLimitExceeded) ∧
    (∀ t', reopenTicket t u = .ok t' → t'.reopenCount = t.reopenCount + 1) ∧
    (∀ (target : TicketStatus) (p : Principal) (t' : Ticket),
      ticketTransition t target p = .ok t' → t'.reopenCount = t.reopenCount) := by
  refine ⟨fun h1 h2 h3 => ?_, fun t' h1 ho h2 => ?_, fun t' h => ?_, fun target p t' h => ?_⟩
  · simp [reopenTicket, h1, ← h2, h3]
  · simp [reopenTicket, h1, ← ho, h2]
  · unfold reopenTicket at h
    by_cases h1 : t.status = .CLOSED
    · by_cases h2 : u = t.owner
      · by_cases h3 : 1 ≤ t.reopenCount
        · simp [h1, h2, h3] at h
        · simp only [h1, ne_eq, not_true_eq_false, if_false, h2,
            not_false_eq_true, h3, Except.ok.injEq] at h
          rw [← h]
      · simp [h1, h2] at h
    · simp [h1] at h
  · unfold ticketTransition at h
    by_cases hedge : ticketAllowedNext t.status target
    · cases target <;> simp only [hedge, if_true] at h
      · cases h
      · by_cases hcap : has p.mask SUPPORT_AGENT
        · cases hag : t.assignedAgent with
          | some a => simp [hcap, hag] at h
          | none =>
            simp only [hcap, if_true, hag, Except.ok.injEq] at h
            rw [← h]
        · simp [hcap] at h
      · by_cases hcap : (t.assignedAgent == some p.subjectId || has p.mask ADMIN) = true
        · simp only [hcap, if_true, Except.ok.injEq] at h
          rw [← h]
        · simp [hcap] at h
      · by_cases hcap : (p.subjectId == t.owner || t.assignedAgent == some p.subjectId ||
            has p.mask ADMIN) = true
        · simp only [hcap, if_true, Except.ok.injEq] at h
          rw [← h]
        · simp [hcap] at h
    · simp [hedge] at h

/-- Witness for claim C5: a concrete first reopen succeeds and a second
one, after the ticket closed again, fails with ReopenLimitExceeded. -/
theorem ticket_reopen_once_witness :
    reopenTicket sampleClosedTicket 2 =
      .ok { sampleClosedTicket with status := .OPEN, reopenCount := 1, version := 6 } ∧
    reopenTicket { sampleClosedTicket with reopenCount := 1 } 2 =
      .error .ReopenLimitExceeded := by
  constructor
  · have h := (ticket_reopen_once sampleClosedTicket 2).1 rfl rfl rfl
    simpa using h
  · exact (ticket_reopen_once sampleClosedTicket 2).2.1
      { sampleClosedTicket with reopenCount := 1 } rfl rfl (by decide)

/-- Claim C10: with a falsy `image` and a defined `username` the
ProfileImage component renders the fallback element whose text is the
first character of the username uppercased and whose font size is `size`
when `size - 10 < 5` (equivalently `size < 15`) and `size - 10`
otherwise; with a falsy `image` and no `username` the call throws. -/
theorem profileImage_fallback (image username : Option String) (size : Int)
    (h : jsTruthy image = false) :
    (username = none → profileImage image username size = none) ∧
    (∀ u, username = some u →
      profileImage image username size =
        some (.fallback
          (match u.data with
           | [] => ""
           | c :: _ => ⟨[Char.toUpper c]⟩)
          size size (if size < 15 then size else size - 10))) := by
  constructor
  · intro hu
    subst hu
    simp [profileImage, h]
  · intro u hu
    subst hu
    have h15 : size - 10 < 5 ↔ size < 15 := by omega
    have htext : jsToUpper (jsCharAt u 0) =
        (match u.data with
         | [] => ""
         | c :: _ => (⟨[Char.toUpper c]⟩ : String)) := by
      cases hd : u.data <;> simp [jsCharAt, jsToUpper, hd]
    simp [profileImage, h, htext, h15]

/-- Witness for claim C10: with no image and username "bob" at size 20,
the fallback shows "B" at font size 10. -/
theorem profileImage_fallback_witness :
    profileImage none (some "bob") 20 = some (.fallback "B" 20 20 10) := by
  have h := (profileImage_fallback none (some "bob") 20 (by decide)).2 "bob" rfl
  simpa using h

/-- Counterexample to claim C9 as stated: the empty string is a non-null
search query and matches every item with a populated text field under
the claim's predicate, yet the code's guard `!searchQuery` treats it as
falsy and returns the empty list. -/
theorem filteredItems_empty_query_counterexample :
    filteredItems (some "") (some [sampleItem]) = [] ∧
    claimFilteredItems (some "") (some [sampleItem]) = [sampleItem] := by
  constructor <;> decide

/-- Claim C9 (amended): for every non-null, non-empty search query the
Home page's `filteredItems` contains exactly the items whose lowercased
`itemName`, `description` or `category`, or some lowercased element of
the `colors` array, contains the lowercased query; whenever the query is
absent or empty, or the item list body is absent, the result is empty. -/
theorem filteredItems_spec (q : String) (items : List Item) (hq : q ≠ "") :
    (∀ it, it ∈ filteredItems (some q) (some items) ↔
        it ∈ items ∧ itemMatches (jsToLower q) it = true) ∧
    (∀ b, filteredItems none b = []) ∧
    (filteredItems (some q) none = []) ∧
    (filteredItems (some "") (some items) = []) := by
  have hne : ¬ q.isEmpty := by
    simpa [String.isEmpty_iff] using hq
  refine ⟨fun it => ?_, fun b => by cases b <;> rfl, rfl, rfl⟩
  simp [filteredItems, hne, List.mem_filter]

/-- Witness for claim C9: the query "alp" retrieves the sample item
named "Alpha". -/
theorem filteredItems_spec_witness :
    sampleItem ∈ filteredItems (some "alp") (some [sampleItem]) :=
  ((filteredItems_spec "alp" [sampleItem] (by decide)).1 sampleItem).mpr
    ⟨by decide, by decide⟩

/-- One selection step starting from a candidate always keeps some
candidate. -/
theorem betterAgent_some (b a : Agent) : ∃ c, betterAgent (some b) a = some c := by
  unfold betterAgent
  by_cases h : (a.load < b.load || (a.load == b.load && a.id < b.id)) = true
  · exact ⟨a, by simp [h]⟩
  · exact ⟨b, by simp [h]⟩

/-- Folding the selection step from a candidate always yields an agent. -/
theorem foldl_betterAgent_some (l : List Agent) (b : Agent) :
    ∃ c, l.foldl betterAgent (some b) = some c := by
  induction l generalizing b with
  | nil => exact ⟨b, rfl⟩
  | cons a tl ih =>
    obtain ⟨c, hc⟩ := betterAgent_some b a
    rw [List.foldl_cons, hc]
    exact ih c

/-- With an available agent in the pool, `pickAgent` selects someone. -/
theorem pickAgent_some (agents : List Agent) (a : Agent) (ha : a ∈ agents)
    (hav : a.available = true) : ∃ c, pickAgent agents = some c := by
  have hmem : a ∈ agents.filter fun x => x.available :=
    List.mem_filter.mpr ⟨ha, hav⟩
  unfold pickAgent
  cases hf : agents.filter fun x => x.available with
  | nil => rw [hf] at hmem; cases hmem
  | cons x tl =>
    rw [List.foldl_cons]
    exact foldl_betterAgent_some tl x

/-- A conditional assignment write against an order that is no longer
CONFIRMED is rejected as AlreadyAssigned and changes nothing. -/
theorem condAssign_stale (v : Nat) (s : AssignState)
    (h : s.order.status ≠ .CONFIRMED) :
    condAssign v s = (.alreadyAssigned, s) := by
  simp [condAssign, h]

/-- Once the order has left CONFIRMED, every remaining write of the race
is rejected as AlreadyAssigned and the state never changes. -/
theorem assignRace_stale (v : Nat) (n : Nat) (s : AssignState)
    (h : s.order.status ≠ .CONFIRMED) :
    assignRace v n s = (List.replicate n .alreadyAssigned, s) := by
  induction n with
  | zero => rfl
  | succ n ih =>
    simp [assignRace, condAssign_stale v s h, ih, List.replicate_succ]

/-- Claim C2: N ≥ 2 simultaneous `assign` calls on one CONFIRMED order,
all reading the same version and linearized by the store's conditional
write, produce exactly one successful assignment; every other call
returns AlreadyAssigned. -/
theorem assign_race_exclusive (s : AssignState) (n : Nat)
    (hn : 2 ≤ n) (hst : s.order.status = .CONFIRMED)
    (hag : ∃ a ∈ s.agents, a.available = true) :
    ((assignRace s.order.version n s).1.countP isAssigned = 1) ∧
    (∀ r ∈ (assignRace s.order.version n s).1, isAssigned r = false →
        r = .alreadyAssigned) ∧
    ((assignRace s.order.version n s).2.order.status = .ASSIGNED ∧
        (assignRace s.order.version n s).2.order.assignedAgent ≠ none) := by
  obtain ⟨a, ha, hav⟩ := hag
  obtain ⟨c, hpick⟩ := pickAgent_some s.agents a ha hav
  obtain ⟨m, rfl⟩ : ∃ m, n = m + 1 := ⟨n - 1, by omega⟩
  have hfst : (condAssign s.order.version s).1 = .assigned c.id := by
    simp [condAssign, hst, hpick]
  have hsnd : (condAssign s.order.version s).2.order.status = .ASSIGNED := by
    simp [condAssign, hst, hpick]
  have hagent : (condAssign s.order.version s).2.order.assignedAgent = some c.id := by
    simp [condAssign, hst, hpick]
  have hrest : assignRace s.order.version m (condAssign s.order.version s).2 =
      (List.replicate m .alreadyAssigned, (condAssign s.order.version s).2) :=
    assignRace_stale _ m _ (by rw [hsnd]; intro hc; cases hc)
  have hshape : (assignRace s.order.version (m + 1) s).1 =
      .assigned c.id :: List.replicate m .alreadyAssigned := by
    rw [assignRace]
    simp [hrest, hfst]
  have hstate : (assignRace s.order.version (m + 1) s).2 =
      (condAssign s.order.version s).2 := by
    rw [assignRace]
    simp [hrest]
  rw [hshape, hstate]
  refine ⟨?_, ?_, hsnd, by rw [hagent]; intro hc; cases hc⟩
  · have hrep : ∀ k, List.countP isAssigned
        (List.replicate k AssignResult.alreadyAssigned) = 0 := by
      intro k
      induction k with
      | zero => rfl
      | succ k ih => simp [List.replicate_succ, List.countP_cons, ih, isAssigned]
    simp [List.countP_cons, isAssigned, hrep]
  · intro r hr hfail
    rcases List.mem_cons.mp hr with h | h
    · rw [h] at hfail; cases hfail
    · exact List.eq_of_mem_replicate h

/-- Witness for claim C2: three racing assignment calls on a CONFIRMED
order with one available agent produce exactly one success. -/
theorem assign_race_exclusive_witness :
    (assignRace sampleConfirmedState.order.version 3 sampleConfirmedState).1.countP
        isAssigned = 1 :=
  (assign_race_exclusive sampleConfirmedState 3 (by decide) (by decide)
    ⟨{ id := 1, available := true, load := 0 }, by decide, rfl⟩).1
